import Mathlib

set_option linter.unusedVariables false

/-!
Shallow embedding of the NANOFIT virtual try-on application
(`src/utils/imageUtils.ts`, the Gemini service module in `src/unnamed/part_000`,
and the refinement/undo handlers of `src/App.tsx`).

Remote API calls are abstracted as oracles: each call site of
`ai.models.generateContent` is given its outcome (a thrown value, or a
response object) as an explicit argument, and the service functions are
translated as pure functions of their arguments and these oracle outcomes.
JavaScript thrown values are modelled by `ThrownVal` (an `Error` object
carrying a `.message`, or any non-`Error` value); JavaScript `undefined`
for optional fields is modelled by `Option`.
-/

namespace NanoFit

/-- Model of a JavaScript thrown value: an `Error` object with its
`.message`, or any other (non-`Error`) value. -/
inductive ThrownVal where
  | errObj (msg : String)
  | nonError
deriving DecidableEq, Repr

/-- The `instanceof Error ? e.message : "Unknown error"` idiom used by
`generateTryOn` when rethrowing the last error. -/
def jsErrorMessage (e : ThrownVal) : String :=
  match e with
  | .errObj msg => msg
  | .nonError => "Unknown error"

/-- `ItemType` from `src/types.ts`: `'clothing' | 'accessory' | null`. -/
inductive ItemType where
  | clothing
  | accessory
  | nullType
deriving DecidableEq, Repr

/-- `ModelMode` from `src/types.ts`: `'pro' | 'flash'`. -/
inductive ModelMode where
  | pro
  | flash
deriving DecidableEq, Repr

/-- Does the second list start with the first?  (Used to model JavaScript
`String.prototype.includes` and regex literal matching over `String.data`.) -/
def leadsWith : List Char → List Char → Bool
  | [], _ => true
  | _ :: _, [] => false
  | p :: ps, c :: cs => p == c && leadsWith ps cs

/-- Does `l` contain `pat` as a contiguous run?  Model of JavaScript
`String.prototype.includes`. -/
def hasSub (pat : List Char) : List Char → Bool
  | [] => leadsWith pat []
  | c :: t => leadsWith pat (c :: t) || hasSub pat t

/-- JavaScript `s.includes(pat)` on our string model. -/
def strIncludes (s pat : String) : Bool :=
  hasSub pat.data s.data

/-- JavaScript whitespace as removed by `String.prototype.trim` (the ASCII
whitespace characters, no-break space and the BOM; the rarer Unicode space
separators are irrelevant to the model's English replies). -/
def isJsSpace (c : Char) : Bool :=
  c == ' ' || c == '\t' || c == '\n' || c == '\r' || c == '\x0b' || c == '\x0c' ||
  c == ' ' || c == '﻿'

/-- JavaScript `s.trim()`. -/
def jsTrim (s : String) : String :=
  String.mk (((s.data.dropWhile isJsSpace).reverse.dropWhile isJsSpace).reverse)

/-- JavaScript `s.toLowerCase()` (character-wise, as for the ASCII replies
the service inspects). -/
def toLowerStr (s : String) : String :=
  String.mk (s.data.map Char.toLower)

/-- JavaScript `s.toUpperCase()` (character-wise). -/
def toUpperStr (s : String) : String :=
  String.mk (s.data.map Char.toUpper)

/-! ## `src/utils/imageUtils.ts` -/

/-- JavaScript `str.split(',')` on the character-list view of a string:
splits at every `','`, keeping empty fragments, and returns `[[]]` on the
empty string (exactly as `''.split(',')` returns `[""]`). -/
def splitOnComma : List Char → List (List Char)
  | [] => [[]]
  | c :: t =>
    if c = ',' then [] :: splitOnComma t
    else
      match splitOnComma t with
      | [] => [[c]]
      | h :: r => (c :: h) :: r

/-- `cleanBase64` from `src/utils/imageUtils.ts`:
`base64Str.split(',')[1] || base64Str`.  The `[1]` index is `undefined`
when there is no comma and `""` when the first comma ends the string;
both are falsy, so the input is returned unchanged in those cases. -/
def cleanBase64 (base64Str : String) : String :=
  let second := (splitOnComma base64Str.data).getD 1 []
  if second = [] then base64Str else String.mk second

/-- Character class `[a-zA-Z0-9]` of the `getMimeType` regex. -/
def isAlnumAscii (c : Char) : Bool :=
  (decide ('a' ≤ c) && decide (c ≤ 'z')) ||
  (decide ('A' ≤ c) && decide (c ≤ 'Z')) ||
  (decide ('0' ≤ c) && decide (c ≤ '9'))

/-- Character class `[a-zA-Z0-9-.+]` of the `getMimeType` regex. -/
def isSubtypeChar (c : Char) : Bool :=
  isAlnumAscii c || c == '-' || c == '.' || c == '+'

/-- JavaScript line terminators, which `.` in a regex does not match. -/
def isLineTerminator (c : Char) : Bool :=
  c == '\n' || c == '\r' || c == '\u2028' || c == '\u2029'

/-- Is there a `','` in the list before any line terminator?  This is
exactly when the regex fragment `.*,` matches a suffix starting here. -/
def commaBeforeLineTerm : List Char → Bool
  | [] => false
  | c :: t =>
    if c = ',' then true
    else if isLineTerminator c then false
    else commaBeforeLineTerm t

/-- The literal `data:` that the `getMimeType` regex must find. -/
def dataColon : List Char := ['d', 'a', 't', 'a', ':']

/-- One attempted match of the regex `/data:([a-zA-Z0-9]+\/[a-zA-Z0-9-.+]+).*,.*/`
at the head of the list, returning the capture group.  Both character-class
runs are matched greedily (backtracking them can never help: the characters
given back are neither commas nor line terminators, so the `.*,` test is
unaffected), and the trailing `.*` always matches. -/
def matchDataUrlAt (l : List Char) : Option (List Char) :=
  if leadsWith dataColon l then
    let rest := l.drop 5
    let run1 := rest.takeWhile isAlnumAscii
    if run1.isEmpty then none
    else
      match rest.dropWhile isAlnumAscii with
      | '/' :: rest2 =>
        let run2 := rest2.takeWhile isSubtypeChar
        if run2.isEmpty then none
        else if commaBeforeLineTerm (rest2.dropWhile isSubtypeChar) then
          some (run1 ++ '/' :: run2)
        else none
      | _ => none
  else none

/-- JavaScript `String.prototype.match` semantics: try the regex at each
position from the left and return the first capture. -/
def searchDataUrl : List Char → Option (List Char)
  | [] => none
  | c :: t =>
    match matchDataUrlAt (c :: t) with
    | some m => some m
    | none => searchDataUrl t

/-- `getMimeType` from `src/utils/imageUtils.ts`:
`base64Str.match(/data:([a-zA-Z0-9]+\/[a-zA-Z0-9-.+]+).*,.*/)`, returning
capture group 1 on a match and `'image/png'` otherwise. -/
def getMimeType (base64Str : String) : String :=
  match searchDataUrl base64Str.data with
  | some m => String.mk m
  | none => "image/png"

/-! ## Response model for `@google/genai` responses

The fields are exactly those the service module reads; `Option` models a
field that may be absent (`undefined`). -/

/-- An `inlineData` part payload: the MIME type (possibly absent) and the
base64 data. -/
structure InlineData where
  mimeType : Option String
  data : String
deriving DecidableEq, Repr

/-- One element of `candidate.content.parts`. -/
structure ResponsePart where
  inlineData : Option InlineData
  text : Option String
deriving DecidableEq, Repr

/-- `candidate.content`. -/
structure Content where
  parts : Option (List ResponsePart)
deriving DecidableEq, Repr

/-- `response.promptFeedback`. -/
structure PromptFeedback where
  blockReason : Option String
deriving DecidableEq, Repr

/-- One element of `response.candidates`. -/
structure Candidate where
  finishReason : Option String
  content : Option Content
deriving DecidableEq, Repr

/-- A `generateContent` response object. -/
structure Response where
  candidates : Option (List Candidate)
  promptFeedback : Option PromptFeedback
deriving DecidableEq, Repr

/-- The first candidate of a (possibly null) response, when the candidate
list is present and non-empty. -/
def firstCandidate : Option Response → Option Candidate
  | none => none
  | some resp =>
    match resp.candidates with
    | none => none
    | some [] => none
    | some (c :: _) => some c

/-- The JavaScript-truthy test `candidate.finishReason && candidate.finishReason !== 'STOP'`. -/
def finishBlocked (c : Candidate) : Bool :=
  match c.finishReason with
  | none => false
  | some fr => fr != "" && fr != "STOP"

/-- `candidate.content?.parts || []`. -/
def partsOf (c : Candidate) : List ResponsePart :=
  match c.content with
  | none => []
  | some co => co.parts.getD []

/-- The first part carrying `inlineData` (the `for` loop of
`extractImageFromResponse`). -/
def firstInline : List ResponsePart → Option InlineData
  | [] => none
  | p :: t =>
    match p.inlineData with
    | some d => some d
    | none => firstInline t

/-- The first truthy `text` of a part (`parts.find(p => p.text)` followed by
the `textPart && textPart.text` truthiness test). -/
def firstText : List ResponsePart → Option String
  | [] => none
  | p :: t =>
    match p.text with
    | some s => if s = "" then firstText t else some s
    | none => firstText t

/-- The success value `data:${mimeType || 'image/png'};base64,${data}`. -/
def dataUrl (d : InlineData) : String :=
  "data:" ++
    (match d.mimeType with
     | some m => if m = "" then "image/png" else m
     | none => "image/png") ++
  ";base64," ++ d.data

/-- The error thrown when candidates are missing: a safety-filter message if
`response?.promptFeedback?.blockReason` is truthy, a generic one otherwise. -/
def noCandidatesError (resp : Response) : String :=
  match resp.promptFeedback with
  | some pf =>
    match pf.blockReason with
    | some br =>
      if br = "" then "No candidates returned from the model."
      else "Request blocked by safety filters: " ++ br
    | none => "No candidates returned from the model."
  | none => "No candidates returned from the model."

/-- `extractImageFromResponse` from the service module.  Throwing is
modelled by `Except.error` carrying the error message. -/
def extractImageFromResponse (response : Option Response) : Except String String :=
  match response with
  | none => Except.error "No candidates returned from the model."
  | some resp =>
    match resp.candidates with
    | none => Except.error (noCandidatesError resp)
    | some [] => Except.error (noCandidatesError resp)
    | some (candidate :: _) =>
      if finishBlocked candidate then
        Except.error ("Generation stopped. Reason: " ++ (candidate.finishReason.getD "") ++
          " (The model likely refused the request due to safety/policy filters)")
      else
        let parts := partsOf candidate
        if parts.isEmpty then
          Except.error "Model returned a candidate but no content parts."
        else
          match firstInline parts with
          | some d => Except.ok (dataUrl d)
          | none =>
            match firstText parts with
            | some t => Except.error ("Model Refusal: " ++ t.take 150 ++ "...")
            | none => Except.error "No valid image data found in the response candidates."

/-! ## The service module (`src/unnamed/part_000`)

Every `ai.models.generateContent` call site receives its outcome through an
oracle field: `Except.error v` models the call throwing the value `v`, and
`Except.ok x` models it resolving with `x`.  For text calls `x` is
`response.text` (`Option String`, `none` for `undefined`); for image calls
`x` is the whole response object (`Option Response`, `none` for a null
response).  `getAiClient` is assumed to succeed, i.e. an API key is
available. -/

/-- `getItemDescription`: `response.text?.trim() || "fashion item"`, and
`"stylish clothing item"` when the call throws. -/
def getItemDescription (call : Except ThrownVal (Option String)) : String :=
  match call with
  | .error _ => "stylish clothing item"
  | .ok none => "fashion item"
  | .ok (some t) => if jsTrim t = "" then "fashion item" else jsTrim t

/-- `validateResult`: `response.text?.trim().toUpperCase().includes("YES") ?? true`,
and `true` when the call throws. -/
def validateResult (call : Except ThrownVal (Option String)) : Bool :=
  match call with
  | .error _ => true
  | .ok none => true
  | .ok (some t) => strIncludes (toUpperStr (jsTrim t)) "YES"

/-- `parseAnalysisResponse` from the service module. -/
def parseAnalysisResponse (text : Option String) : ItemType :=
  match text with
  | none => ItemType.clothing
  | some t =>
    let lowerText := toLowerStr (jsTrim t)
    if strIncludes lowerText "clothing" then ItemType.clothing
    else if strIncludes lowerText "accessory" then ItemType.accessory
    else ItemType.clothing

/-- Oracle for the two `generateContent` calls `analyzeItemImage` can make. -/
structure AnalyzeOracle where
  primaryCall : Except ThrownVal (Option String)
  fallbackCall : Except ThrownVal (Option String)

/-- `analyzeItemImage`: analysis with the mode's model, falling back to
`'gemini-2.5-flash'` once in `'pro'` mode, defaulting to `'clothing'` when
the calls fail.  The second component records the models called, in order.
The image contents sent with each request are abstracted into the oracle. -/
def analyzeItemImage (itemBase64 mimeType : String) (mode : ModelMode)
    (o : AnalyzeOracle) : ItemType × List String :=
  let modelToUse := if mode = ModelMode.pro then "gemini-3-pro-preview" else "gemini-2.5-flash"
  match o.primaryCall with
  | .ok t => (parseAnalysisResponse t, [modelToUse])
  | .error _ =>
    if mode = ModelMode.pro then
      match o.fallbackCall with
      | .ok t => (parseAnalysisResponse t, [modelToUse, "gemini-2.5-flash"])
      | .error _ => (ItemType.clothing, [modelToUse, "gemini-2.5-flash"])
    else (ItemType.clothing, [modelToUse])

/-- The strict generation prompt of `generateTryOn` (the ternary
`type === 'clothing' ? … : …`; the `null` member of `ItemType` selects the
accessory branch, as in the source). -/
def strictPrompt (ty : ItemType) : String :=
  match ty with
  | ItemType.clothing => "You are given two images:
@img1 → the person
@img2 → the clothing item.

Make the person from @img1 wear the clothing from @img2.
Do not alter the facial appearance, identity, skin tone, or pose of the person.
Do not modify or redesign the clothing from @img2 in any way.

Fit the clothing naturally on the body, matching lighting, perspective, and proportions.
Blend realistically without changing anything else in the original image.

Output only the final edited image."
  | _ => "You are given two images:
@img1 → the person
@img2 → the accessory.

Place the accessory from @img2 naturally on the person in @img1, in the correct location for that accessory.
Do not alter the person’s facial appearance, identity, or any part of their original image.
Do not alter or redesign the accessory from @img2.

Match lighting, shadows, scale, and perspective for realism.
Blend seamlessly without modifying anything except what is required to place the accessory.

Output only the final edited image."

/-- The relaxed generation prompt of `generateTryOn`, parameterised by the
item description produced in step 1. -/
def relaxedPrompt (ty : ItemType) (itemDescription : String) : String :=
  match ty with
  | ItemType.clothing =>
    "Create a high-quality fashion editorial image featuring the person from the first image wearing the "
    ++ itemDescription ++
    " shown in the second image.
       - Blend the clothing naturally onto the body.
       - Match the lighting and shadows of the original photo.
       - Keep the person's pose and expression unchanged.
       - This is a digital fashion composite."
  | _ =>
    "Create a realistic image of the person from the first image wearing the accessory ("
    ++ itemDescription ++
    ") from the second image.
       - Place the accessory naturally.
       - Ensure lighting matches."

/-- The primary image-generation model chosen by `generateTryOn`. -/
def primaryGenModel (mode : ModelMode) : String :=
  match mode with
  | ModelMode.pro => "gemini-3-pro-image-preview"
  | ModelMode.flash => "gemini-2.5-flash-image"

/-- One `executeGeneration` run: the `generateContent` call followed by
`extractImageFromResponse`.  A throw of the call propagates; an extraction
failure is a thrown `Error` carrying the extraction message. -/
def runAttempt (call : Except ThrownVal (Option Response)) : Except ThrownVal String :=
  match call with
  | .error e => .error e
  | .ok r =>
    match extractImageFromResponse r with
    | .ok img => .ok img
    | .error m => .error (ThrownVal.errObj m)

/-- Oracle for the five `generateContent` call sites reachable from
`generateTryOn`: the description call, the three generation attempts, and
the validation call. -/
structure TryOnOracle where
  descCall : Except ThrownVal (Option String)
  attempt1 : Except ThrownVal (Option Response)
  attempt2 : Except ThrownVal (Option Response)
  attempt3 : Except ThrownVal (Option Response)
  validateCall : Except ThrownVal (Option String)

/-- One observable remote interaction of `generateTryOn`. -/
inductive ServiceCall where
  | describeItem
  | generate (model : String) (promptText : String)
  | validate
deriving DecidableEq, Repr

/-- Observable outcome of a `generateTryOn` run: the returned image or the
thrown error message, the ordered list of remote interactions, and whether
the internal-review `console.warn` fired. -/
structure TryOnOutcome where
  result : Except String String
  trace : List ServiceCall
  reviewWarning : Bool

/-- `generateTryOn` from the service module: item description, strict and
relaxed prompts, the retry cascade (primary model + strict prompt, primary
model + relaxed prompt, and — only in `'pro'` mode — fallback model +
strict prompt), the `Generation failed:` rethrow of the last error, and the
post-hoc validation on success.  The image arguments only flow into request
contents, which the oracle abstracts. -/
def generateTryOn (personBase64 personMime itemBase64 itemMime : String)
    (ty : ItemType) (mode : ModelMode) (o : TryOnOracle) : TryOnOutcome :=
  let itemDescription := getItemDescription o.descCall
  let strict := strictPrompt ty
  let relaxed := relaxedPrompt ty itemDescription
  let primaryModel := primaryGenModel mode
  let fallbackModel := "gemini-2.5-flash-image"
  let finishUp := fun (gens : List ServiceCall) (img : String) =>
    let isValid := validateResult o.validateCall
    { result := Except.ok img
      trace := ServiceCall.describeItem :: gens ++ [ServiceCall.validate]
      reviewWarning := !isValid : TryOnOutcome }
  let giveUp := fun (gens : List ServiceCall) (lastError : ThrownVal) =>
    { result := Except.error ("Generation failed: " ++ jsErrorMessage lastError)
      trace := ServiceCall.describeItem :: gens
      reviewWarning := false : TryOnOutcome }
  match runAttempt o.attempt1 with
  | .ok img => finishUp [ServiceCall.generate primaryModel strict] img
  | .error _ =>
    match runAttempt o.attempt2 with
    | .ok img =>
      finishUp [ServiceCall.generate primaryModel strict,
                ServiceCall.generate primaryModel relaxed] img
    | .error e2 =>
      if mode = ModelMode.pro then
        match runAttempt o.attempt3 with
        | .ok img =>
          finishUp [ServiceCall.generate primaryModel strict,
                    ServiceCall.generate primaryModel relaxed,
                    ServiceCall.generate fallbackModel strict] img
        | .error e3 =>
          giveUp [ServiceCall.generate primaryModel strict,
                  ServiceCall.generate primaryModel relaxed,
                  ServiceCall.generate fallbackModel strict] e3
      else
        giveUp [ServiceCall.generate primaryModel strict,
                ServiceCall.generate primaryModel relaxed] e2

/-- Oracle for the two `generateContent` calls `refineImage` can make. -/
structure RefineOracle where
  primaryCall : Except ThrownVal (Option Response)
  fallbackCall : Except ThrownVal (Option Response)

/-- Observable outcome of a `refineImage` run. -/
structure RefineOutcome where
  result : Except ThrownVal String
  modelsTried : List String

/-- `refineImage` from the service module: one call with the mode's model;
in `'pro'` mode a failure (of the call or of the extraction) is retried
once with `'gemini-2.5-flash-image'`, whose own failure propagates; in
`'flash'` mode the original error is rethrown unchanged. -/
def refineImage (currentImageBase64 instruction : String) (mode : ModelMode)
    (o : RefineOracle) : RefineOutcome :=
  let model := primaryGenModel mode
  match runAttempt o.primaryCall with
  | .ok img => { result := Except.ok img, modelsTried := [model] }
  | .error err =>
    if mode = ModelMode.pro then
      { result := runAttempt o.fallbackCall
        modelsTried := [model, "gemini-2.5-flash-image"] }
    else
      { result := Except.error err, modelsTried := [model] }

/-! ## Refinement history handling (`src/App.tsx`) -/

/-- The part of the App state touched by `handleRefine` and `handleUndo`. -/
structure StudioState where
  generatedImage : Option String
  history : List String
deriving DecidableEq, Repr

/-- `handleRefine` from `src/App.tsx`: guard on a truthy
`state.generatedImage`, push it on the history, run `refineImage` (its
outcome passed as `refineOutcome`), and on failure pop the pushed entry
and rethrow (the second component is the rethrown value). -/
def handleRefine (st : StudioState) (refineOutcome : Except ThrownVal String) :
    StudioState × Option ThrownVal :=
  match st.generatedImage with
  | none => (st, none)
  | some cur =>
    if cur = "" then (st, none)
    else
      let pushed := { st with history := st.history ++ [cur] }
      match refineOutcome with
      | .ok refined => ({ pushed with generatedImage := some refined }, none)
      | .error e => ({ pushed with history := pushed.history.dropLast }, some e)

/-- `handleUndo` from `src/App.tsx`: no-op on an empty history, otherwise
restore the last history entry and pop it. -/
def handleUndo (st : StudioState) : StudioState :=
  if st.history.length = 0 then st
  else
    { generatedImage := st.history.getLast?
      history := st.history.dropLast }

/-! ## Concrete fixtures used by witnesses and counterexamples -/

/-- A concrete inline JPEG payload used by witnesses. -/
def sampleInline : InlineData := { mimeType := some "image/jpeg", data := "QQ==" }

/-- A concrete response part carrying `sampleInline`. -/
def samplePart : ResponsePart := { inlineData := some sampleInline, text := none }

/-- A concrete candidate that stopped normally with one inline part. -/
def sampleCandidate : Candidate :=
  { finishReason := some "STOP", content := some { parts := some [samplePart] } }

/-- A concrete successful response used by witnesses. -/
def sampleResponse : Response :=
  { candidates := some [sampleCandidate], promptFeedback := none }

/-- Concrete oracle: description succeeds, both prompt attempts fail, the
third-rung response would have carried an image. -/
def c1Oracle : TryOnOracle :=
  { descCall := Except.ok (some "a denim jacket")
    attempt1 := Except.error (ThrownVal.errObj "quota exceeded")
    attempt2 := Except.error (ThrownVal.errObj "rate limited")
    attempt3 := Except.ok (some sampleResponse)
    validateCall := Except.ok (some "YES") }

/-- Concrete oracle whose first attempt already yields an image. -/
def happyOracle : TryOnOracle :=
  { descCall := Except.ok (some "red scarf")
    attempt1 := Except.ok (some sampleResponse)
    attempt2 := Except.error ThrownVal.nonError
    attempt3 := Except.error ThrownVal.nonError
    validateCall := Except.ok (some "YES") }

/-- Concrete oracle: description fails, both prompt attempts fail (the
last with a non-`Error` and then an `Error`), third rung would succeed. -/
def c2Oracle : TryOnOracle :=
  { descCall := Except.error ThrownVal.nonError
    attempt1 := Except.error ThrownVal.nonError
    attempt2 := Except.error (ThrownVal.errObj "model overloaded")
    attempt3 := Except.ok (some sampleResponse)
    validateCall := Except.ok none }

/-- Concrete oracle on which every generation attempt fails, the last one
with an `Error` whose message is `"internal"`. -/
def allFailOracle : TryOnOracle :=
  { descCall := Except.ok none
    attempt1 := Except.error (ThrownVal.errObj "bad request")
    attempt2 := Except.error ThrownVal.nonError
    attempt3 := Except.error (ThrownVal.errObj "internal")
    validateCall := Except.error ThrownVal.nonError }

/-- Concrete refinement oracle: the primary call throws, the fallback
response carries an image. -/
def refineFailOracle : RefineOracle :=
  { primaryCall := Except.error (ThrownVal.errObj "primary down")
    fallbackCall := Except.ok (some sampleResponse) }

/-- Concrete analysis oracle used by witnesses: the pro call fails, the
fallback reply names an accessory. -/
def sampleAnalyzeOracle : AnalyzeOracle :=
  { primaryCall := Except.error ThrownVal.nonError
    fallbackCall := Except.ok (some " Accessory ") }

/-! # Theorems -/

/-! ### Helper lemmas on the string utilities -/

theorem splitOnComma_of_not_mem {l : List Char} (h : ',' ∉ l) :
    splitOnComma l = [l] := by
  induction l with
  | nil => rfl
  | cons c t ih =>
    have hc : c ≠ ',' := fun hc => h (hc ▸ List.mem_cons_self c t)
    have ht : ',' ∉ t := fun hm => h (List.mem_cons_of_mem c hm)
    simp [splitOnComma, hc, ih ht]

theorem splitOnComma_append {h : List Char} (s : List Char) (hh : ',' ∉ h) :
    splitOnComma (h ++ ',' :: s) = h :: splitOnComma s := by
  induction h with
  | nil => simp [splitOnComma]
  | cons c t ih =>
    have hc : c ≠ ',' := fun hc => hh (hc ▸ List.mem_cons_self c t)
    have ht : ',' ∉ t := fun hm => hh (List.mem_cons_of_mem c hm)
    have hne : splitOnComma (t ++ ',' :: s) ≠ [] := by
      rw [ih ht]; exact List.cons_ne_nil _ _
    simp only [List.cons_append, splitOnComma, if_neg hc, List.append_eq]
    rw [ih ht]

theorem leadsWith_append (p l : List Char) : leadsWith p (p ++ l) = true := by
  induction p with
  | nil => rfl
  | cons c t ih => simp [leadsWith, ih]

theorem takeWhile_of_head_neg {p : Char → Bool} {l : List Char}
    (h : ∀ c, l.head? = some c → p c = false) : l.takeWhile p = [] := by
  cases l with
  | nil => rfl
  | cons c t =>
    have := h c rfl
    simp [List.takeWhile_cons, this]

theorem dropWhile_of_head_neg {p : Char → Bool} {l : List Char}
    (h : ∀ c, l.head? = some c → p c = false) : l.dropWhile p = l := by
  cases l with
  | nil => rfl
  | cons c t =>
    have := h c rfl
    simp [List.dropWhile_cons, this]

theorem searchDataUrl_of_no_sub {l : List Char}
    (h : hasSub dataColon l = false) : searchDataUrl l = none := by
  induction l with
  | nil => rfl
  | cons c t ih =>
    have h' : leadsWith dataColon (c :: t) = false ∧ hasSub dataColon t = false := by
      have := h
      simp only [hasSub, Bool.or_eq_false_iff] at this
      exact this
    have hm : matchDataUrlAt (c :: t) = none := by
      simp [matchDataUrlAt, h'.1]
    simp [searchDataUrl, hm, ih h'.2]


/-! ## Claim C7: `cleanBase64` -/

/-- C7 (counterexample).  The claim asserts that for every header `h` and
base64 payload `s`, both comma-free, `cleanBase64 (h ++ "," ++ s) = s`.
With `h = "a"` and `s = ""` (both comma-free) the code returns the whole
input `"a,"`, not `""`: `split(',')[1]` is the empty string, which is
falsy, so `|| base64Str` yields the input unchanged. -/
theorem cleanBase64_empty_payload_counterexample :
    ',' ∉ "a".data ∧ ',' ∉ "".data ∧
    cleanBase64 ("a" ++ "," ++ "") = "a," ∧ cleanBase64 ("a" ++ "," ++ "") ≠ "" := by
  refine ⟨by decide, by decide, by decide, by decide⟩

/-- C7 (amended).  `cleanBase64` strips a data-URL header: for every
comma-free header `h` and *non-empty* comma-free payload `s`,
`cleanBase64 (h ++ "," ++ s) = s`; and every string containing no comma,
or whose first comma is its final character, is returned unchanged. -/
theorem cleanBase64_spec :
    (∀ h s : String, ',' ∉ h.data → ',' ∉ s.data → s ≠ "" →
      cleanBase64 (h ++ "," ++ s) = s) ∧
    (∀ u : String, ',' ∉ u.data → cleanBase64 u = u) ∧
    (∀ t : String, ',' ∉ t.data → cleanBase64 (t ++ ",") = t ++ ",") := by
  refine ⟨?_, ?_, ?_⟩
  · intro h s hh hs hne
    have hdata : (h ++ "," ++ s).data = h.data ++ ',' :: s.data := by
      simp [String.data_append]
    have hsplit : splitOnComma ((h ++ "," ++ s).data) = h.data :: splitOnComma s.data := by
      rw [hdata]; exact splitOnComma_append s.data hh
    have hs1 : splitOnComma s.data = [s.data] := splitOnComma_of_not_mem hs
    have hsd : s.data ≠ [] := by
      intro hcon
      apply hne
      cases s with
      | mk d => cases hcon; rfl
    unfold cleanBase64
    rw [hsplit, hs1]
    simp [List.getD, hsd]
  · intro u hu
    unfold cleanBase64
    rw [splitOnComma_of_not_mem hu]
    simp [List.getD]
  · intro t ht
    have hdata : (t ++ ",").data = t.data ++ ',' :: [] := by
      simp [String.data_append]
    have hsplit : splitOnComma ((t ++ ",").data) = t.data :: splitOnComma [] := by
      rw [hdata]; exact splitOnComma_append [] ht
    unfold cleanBase64
    rw [hsplit]
    simp [splitOnComma, List.getD]

/-- C7 (witness).  The amended theorem at a concrete data URL, a concrete
comma-free string, and a concrete string ending in its only comma. -/
theorem cleanBase64_spec_witness :
    cleanBase64 ("data:image/png;base64" ++ "," ++ "QUJD") = "QUJD" ∧
    cleanBase64 "QUJD" = "QUJD" ∧
    cleanBase64 ("header" ++ ",") = "header" ++ "," := by
  refine ⟨?_, ?_, ?_⟩
  · exact cleanBase64_spec.1 "data:image/png;base64" "QUJD" (by decide) (by decide) (by decide)
  · exact cleanBase64_spec.2.1 "QUJD" (by decide)
  · exact cleanBase64_spec.2.2 "header" (by decide)

/-! ## Claim C8: `getMimeType` -/

/-- C8 (counterexample).  The claim asserts `getMimeType` parses only a
well-formed data-URL *prefix* and returns `'image/png'` for every string
without one.  The regex is an unanchored search: `"xdata:a/b,c"` does not
start with `data:` (so carries no data-URL prefix), yet `getMimeType`
returns `"a/b"` instead of the default. -/
theorem getMimeType_unanchored_counterexample :
    leadsWith dataColon ("xdata:a/b,c".data) = false ∧
    getMimeType "xdata:a/b,c" = "a/b" ∧
    getMimeType "xdata:a/b,c" ≠ "image/png" := by
  refine ⟨rfl, rfl, ?_⟩
  decide

/-- C8 (amended).  `getMimeType` matches its data-URL pattern anywhere in
the string, not only as a prefix: an input that *begins* with
`data:<type>/<subtype>` (type a non-empty `[a-zA-Z0-9]` run, subtype a
non-empty maximal `[a-zA-Z0-9-.+]` run) followed by a comma occurring
before any line terminator yields `<type>/<subtype>`, and an input that
nowhere contains the substring `data:` yields the default `'image/png'`. -/
theorem getMimeType_spec :
    (∀ t st rest : List Char,
      t ≠ [] → (∀ c ∈ t, isAlnumAscii c = true) →
      st ≠ [] → (∀ c ∈ st, isSubtypeChar c = true) →
      (∀ c, rest.head? = some c → isSubtypeChar c = false) →
      commaBeforeLineTerm rest = true →
      getMimeType (String.mk ('d' :: 'a' :: 't' :: 'a' :: ':' :: (t ++ '/' :: (st ++ rest))))
        = String.mk (t ++ '/' :: st)) ∧
    (∀ s : String, hasSub dataColon s.data = false → getMimeType s = "image/png") := by
  constructor
  · intro t st rest hts htall hst hstall hrest hcomma
    have hshape : 'd' :: 'a' :: 't' :: 'a' :: ':' :: (t ++ '/' :: (st ++ rest))
        = dataColon ++ (t ++ '/' :: (st ++ rest)) := rfl
    have hmatch : matchDataUrlAt ('d' :: 'a' :: 't' :: 'a' :: ':' :: (t ++ '/' :: (st ++ rest)))
        = some (t ++ '/' :: st) := by
      rw [hshape]
      have hlead := leadsWith_append dataColon (t ++ '/' :: (st ++ rest))
      have hdrop : (dataColon ++ (t ++ '/' :: (st ++ rest))).drop 5 = t ++ '/' :: (st ++ rest) :=
        List.drop_left' rfl
      have hslash : isAlnumAscii '/' = false := by decide
      have htake1 : (t ++ '/' :: (st ++ rest)).takeWhile isAlnumAscii = t := by
        rw [List.takeWhile_append_of_pos (by simpa using htall)]
        simp [List.takeWhile_cons, hslash]
      have hdrop1 : (t ++ '/' :: (st ++ rest)).dropWhile isAlnumAscii = '/' :: (st ++ rest) := by
        rw [List.dropWhile_append_of_pos (by simpa using htall)]
        simp [List.dropWhile_cons, hslash]
      have htake2 : (st ++ rest).takeWhile isSubtypeChar = st := by
        rw [List.takeWhile_append_of_pos (by simpa using hstall)]
        rw [takeWhile_of_head_neg hrest]
        simp
      have hdrop2 : (st ++ rest).dropWhile isSubtypeChar = rest := by
        rw [List.dropWhile_append_of_pos (by simpa using hstall)]
        exact dropWhile_of_head_neg hrest
      have htne : t.isEmpty = false := by
        cases t with
        | nil => exact absurd rfl hts
        | cons a b => rfl
      have hstne : st.isEmpty = false := by
        cases st with
        | nil => exact absurd rfl hst
        | cons a b => rfl
      unfold matchDataUrlAt
      rw [if_pos hlead]
      simp only [hdrop, htake1, hdrop1, htake2, hdrop2, htne, hstne, hcomma]
      simp
    unfold getMimeType
    simp only [String.data]
    rw [searchDataUrl, hmatch]
  · intro s hno
    unfold getMimeType
    rw [searchDataUrl_of_no_sub hno]

/-- C8 (witness).  The amended theorem at a concrete well-formed data URL
and at a concrete string not containing `data:`. -/
theorem getMimeType_spec_witness :
    getMimeType (String.mk (['d', 'a', 't', 'a', ':'] ++
        (['i', 'm', 'a', 'g', 'e'] ++ '/' :: (['p', 'n', 'g'] ++ [';', 'x', ','])))) =
      String.mk ['i', 'm', 'a', 'g', 'e', '/', 'p', 'n', 'g'] ∧
    getMimeType "hello world" = "image/png" := by
  constructor
  · exact getMimeType_spec.1 ['i', 'm', 'a', 'g', 'e'] ['p', 'n', 'g'] [';', 'x', ',']
      (by decide) (by decide) (by decide) (by decide) (by decide) (by decide)
  · exact getMimeType_spec.2 "hello world" (by decide)

/-! ### Helper lemmas on `extractImageFromResponse` and the retry cascade -/

theorem firstInline_some_not_empty {ps : List ResponsePart} {d : InlineData}
    (h : firstInline ps = some d) : ps.isEmpty = false := by
  cases ps with
  | nil => simp [firstInline] at h
  | cons p t => rfl

theorem extract_pos {resp : Response} {c : Candidate} {cs : List Candidate} {d : InlineData}
    (hc : resp.candidates = some (c :: cs)) (hb : finishBlocked c = false)
    (hfi : firstInline (partsOf c) = some d) :
    extractImageFromResponse (some resp) = Except.ok (dataUrl d) := by
  have hp := firstInline_some_not_empty hfi
  simp [extractImageFromResponse, hc, hb, hp, hfi]

theorem extract_ok_shape {r : Option Response} {img : String}
    (h : extractImageFromResponse r = Except.ok img) :
    ∃ c d, firstCandidate r = some c ∧ finishBlocked c = false ∧
      firstInline (partsOf c) = some d ∧ img = dataUrl d := by
  cases r with
  | none => simp [extractImageFromResponse] at h
  | some resp =>
    cases hc : resp.candidates with
    | none => simp [extractImageFromResponse, hc] at h
    | some cands =>
      cases cands with
      | nil => simp [extractImageFromResponse, hc] at h
      | cons c cs =>
        by_cases hb : finishBlocked c = true
        · simp [extractImageFromResponse, hc, hb] at h
        · have hb' : finishBlocked c = false := by
            cases hfb : finishBlocked c with
            | false => rfl
            | true => exact absurd hfb hb
          by_cases hp : (partsOf c).isEmpty = true
          · simp [extractImageFromResponse, hc, hb', hp] at h
          · cases hfi : firstInline (partsOf c) with
            | some d =>
              have := extract_pos hc hb' hfi
              rw [this] at h
              refine ⟨c, d, by simp [firstCandidate, hc], hb', hfi, ?_⟩
              cases h
              rfl
            | none =>
              have hp' : (partsOf c).isEmpty = false := by
                cases hfp : (partsOf c).isEmpty with
                | false => rfl
                | true => exact absurd hfp hp
              cases hft : firstText (partsOf c) with
              | some t => simp [extractImageFromResponse, hc, hb', hp', hfi, hft] at h
              | none => simp [extractImageFromResponse, hc, hb', hp', hfi, hft] at h

theorem extract_err_of_no_candidate {r : Option Response}
    (h : firstCandidate r = none) : ∃ e, extractImageFromResponse r = Except.error e := by
  cases r with
  | none => exact ⟨_, rfl⟩
  | some resp =>
    cases hc : resp.candidates with
    | none => exact ⟨noCandidatesError resp, by simp [extractImageFromResponse, hc]⟩
    | some cands =>
      cases cands with
      | nil => exact ⟨noCandidatesError resp, by simp [extractImageFromResponse, hc]⟩
      | cons c cs => simp [firstCandidate, hc] at h

theorem runAttempt_ok_shape {call : Except ThrownVal (Option Response)} {img : String}
    (h : runAttempt call = Except.ok img) : ∃ d, img = dataUrl d := by
  cases call with
  | error e => simp [runAttempt] at h
  | ok r =>
    cases he : extractImageFromResponse r with
    | ok img' =>
      obtain ⟨c, d, _, _, _, hd⟩ := extract_ok_shape he
      simp [runAttempt, he] at h
      exact ⟨d, by rw [← h]; exact hd⟩
    | error m => simp [runAttempt, he] at h

theorem generateTryOn_eq_ok1 {p pm i im : String} {ty : ItemType} {mode : ModelMode}
    {o : TryOnOracle} {img : String} (h1 : runAttempt o.attempt1 = Except.ok img) :
    generateTryOn p pm i im ty mode o =
      { result := Except.ok img
        trace := [ServiceCall.describeItem,
                  ServiceCall.generate (primaryGenModel mode) (strictPrompt ty),
                  ServiceCall.validate]
        reviewWarning := !validateResult o.validateCall } := by
  simp [generateTryOn, h1]

theorem generateTryOn_eq_ok2 {p pm i im : String} {ty : ItemType} {mode : ModelMode}
    {o : TryOnOracle} {e1 : ThrownVal} {img : String}
    (h1 : runAttempt o.attempt1 = Except.error e1)
    (h2 : runAttempt o.attempt2 = Except.ok img) :
    generateTryOn p pm i im ty mode o =
      { result := Except.ok img
        trace := [ServiceCall.describeItem,
                  ServiceCall.generate (primaryGenModel mode) (strictPrompt ty),
                  ServiceCall.generate (primaryGenModel mode)
                    (relaxedPrompt ty (getItemDescription o.descCall)),
                  ServiceCall.validate]
        reviewWarning := !validateResult o.validateCall } := by
  simp [generateTryOn, h1, h2]

theorem generateTryOn_eq_ok3 {p pm i im : String} {ty : ItemType}
    {o : TryOnOracle} {e1 e2 : ThrownVal} {img : String}
    (h1 : runAttempt o.attempt1 = Except.error e1)
    (h2 : runAttempt o.attempt2 = Except.error e2)
    (h3 : runAttempt o.attempt3 = Except.ok img) :
    generateTryOn p pm i im ty ModelMode.pro o =
      { result := Except.ok img
        trace := [ServiceCall.describeItem,
                  ServiceCall.generate "gemini-3-pro-image-preview" (strictPrompt ty),
                  ServiceCall.generate "gemini-3-pro-image-preview"
                    (relaxedPrompt ty (getItemDescription o.descCall)),
                  ServiceCall.generate "gemini-2.5-flash-image" (strictPrompt ty),
                  ServiceCall.validate]
        reviewWarning := !validateResult o.validateCall } := by
  simp [generateTryOn, h1, h2, h3, primaryGenModel]

theorem generateTryOn_eq_fail_pro {p pm i im : String} {ty : ItemType}
    {o : TryOnOracle} {e1 e2 e3 : ThrownVal}
    (h1 : runAttempt o.attempt1 = Except.error e1)
    (h2 : runAttempt o.attempt2 = Except.error e2)
    (h3 : runAttempt o.attempt3 = Except.error e3) :
    generateTryOn p pm i im ty ModelMode.pro o =
      { result := Except.error ("Generation failed: " ++ jsErrorMessage e3)
        trace := [ServiceCall.describeItem,
                  ServiceCall.generate "gemini-3-pro-image-preview" (strictPrompt ty),
                  ServiceCall.generate "gemini-3-pro-image-preview"
                    (relaxedPrompt ty (getItemDescription o.descCall)),
                  ServiceCall.generate "gemini-2.5-flash-image" (strictPrompt ty)]
        reviewWarning := false } := by
  simp [generateTryOn, h1, h2, h3, primaryGenModel]

theorem generateTryOn_eq_fail_flash {p pm i im : String} {ty : ItemType}
    {o : TryOnOracle} {e1 e2 : ThrownVal}
    (h1 : runAttempt o.attempt1 = Except.error e1)
    (h2 : runAttempt o.attempt2 = Except.error e2) :
    generateTryOn p pm i im ty ModelMode.flash o =
      { result := Except.error ("Generation failed: " ++ jsErrorMessage e2)
        trace := [ServiceCall.describeItem,
                  ServiceCall.generate "gemini-2.5-flash-image" (strictPrompt ty),
                  ServiceCall.generate "gemini-2.5-flash-image"
                    (relaxedPrompt ty (getItemDescription o.descCall))]
        reviewWarning := false } := by
  simp [generateTryOn, h1, h2, primaryGenModel]

/-! ## Claim C10: `extractImageFromResponse` -/

/-- C10.  `extractImageFromResponse` fails exactly when there is no first
candidate, the first candidate's `finishReason` is truthy and differs from
`'STOP'`, or no part of the first candidate carries inline data; on success
it returns `data:<mime>;base64,<data>` built from the first `inlineData`
part of the first candidate, defaulting the MIME type to `image/png` — and
hence every image successfully returned by `refineImage` or `generateTryOn`
has this data-URL shape. -/
theorem extractImageFromResponse_spec :
    (∀ r : Option Response,
      (∃ e, extractImageFromResponse r = Except.error e) ↔
        (firstCandidate r = none ∨
         ∃ c, firstCandidate r = some c ∧
           (finishBlocked c = true ∨ firstInline (partsOf c) = none))) ∧
    (∀ (r : Option Response) (c : Candidate) (d : InlineData),
      firstCandidate r = some c → finishBlocked c = false →
      firstInline (partsOf c) = some d →
      extractImageFromResponse r = Except.ok (dataUrl d)) ∧
    (∀ (ci ins : String) (mode : ModelMode) (o : RefineOracle) (img : String),
      (refineImage ci ins mode o).result = Except.ok img → ∃ d, img = dataUrl d) ∧
    (∀ (p pm i im : String) (ty : ItemType) (mode : ModelMode) (o : TryOnOracle) (img : String),
      (generateTryOn p pm i im ty mode o).result = Except.ok img → ∃ d, img = dataUrl d) := by
  have hpos : ∀ (r : Option Response) (c : Candidate) (d : InlineData),
      firstCandidate r = some c → finishBlocked c = false →
      firstInline (partsOf c) = some d →
      extractImageFromResponse r = Except.ok (dataUrl d) := by
    intro r c d hfc hb hfi
    cases r with
    | none => simp [firstCandidate] at hfc
    | some resp =>
      cases hc : resp.candidates with
      | none => simp [firstCandidate, hc] at hfc
      | some cands =>
        cases cands with
        | nil => simp [firstCandidate, hc] at hfc
        | cons c' cs =>
          have : c' = c := by simpa [firstCandidate, hc] using hfc
          subst this
          exact extract_pos hc hb hfi
  refine ⟨?_, hpos, ?_, ?_⟩
  · intro r
    constructor
    · rintro ⟨e, he⟩
      cases hfc : firstCandidate r with
      | none => exact Or.inl rfl
      | some c =>
        refine Or.inr ⟨c, rfl, ?_⟩
        by_cases hb : finishBlocked c = true
        · exact Or.inl hb
        · have hb' : finishBlocked c = false := by
            cases hfb : finishBlocked c with
            | false => rfl
            | true => exact absurd hfb hb
          cases hfi : firstInline (partsOf c) with
          | none => exact Or.inr rfl
          | some d =>
            have := hpos r c d hfc hb' hfi
            rw [this] at he
            cases he
    · rintro (hfc | ⟨c, hfc, hcase⟩)
      · exact extract_err_of_no_candidate hfc
      · cases r with
        | none => exact ⟨_, rfl⟩
        | some resp =>
          cases hc : resp.candidates with
          | none => exact ⟨noCandidatesError resp, by simp [extractImageFromResponse, hc]⟩
          | some cands =>
            cases cands with
            | nil => exact ⟨noCandidatesError resp, by simp [extractImageFromResponse, hc]⟩
            | cons c' cs =>
              have hcc : c' = c := by simpa [firstCandidate, hc] using hfc
              subst hcc
              rcases hcase with hb | hfi
              · exact ⟨"Generation stopped. Reason: " ++ c'.finishReason.getD "" ++
                  " (The model likely refused the request due to safety/policy filters)",
                  by simp [extractImageFromResponse, hc, hb]⟩
              · by_cases hp : (partsOf c').isEmpty = true
                · by_cases hb : finishBlocked c' = true
                  · exact ⟨"Generation stopped. Reason: " ++ c'.finishReason.getD "" ++
                      " (The model likely refused the request due to safety/policy filters)",
                      by simp [extractImageFromResponse, hc, hb]⟩
                  · have hb' : finishBlocked c' = false := by
                      cases hfb : finishBlocked c' with
                      | false => rfl
                      | true => exact absurd hfb hb
                    exact ⟨"Model returned a candidate but no content parts.",
                      by simp [extractImageFromResponse, hc, hb', hp]⟩
                · have hp' : (partsOf c').isEmpty = false := by
                    cases hfp : (partsOf c').isEmpty with
                    | false => rfl
                    | true => exact absurd hfp hp
                  by_cases hb : finishBlocked c' = true
                  · exact ⟨"Generation stopped. Reason: " ++ c'.finishReason.getD "" ++
                      " (The model likely refused the request due to safety/policy filters)",
                      by simp [extractImageFromResponse, hc, hb]⟩
                  · have hb' : finishBlocked c' = false := by
                      cases hfb : finishBlocked c' with
                      | false => rfl
                      | true => exact absurd hfb hb
                    cases hft : firstText (partsOf c') with
                    | some t =>
                      exact ⟨"Model Refusal: " ++ t.take 150 ++ "...",
                        by simp [extractImageFromResponse, hc, hb', hp', hfi, hft]⟩
                    | none =>
                      exact ⟨"No valid image data found in the response candidates.",
                        by simp [extractImageFromResponse, hc, hb', hp', hfi, hft]⟩
  · intro ci ins mode o img h
    cases h1 : runAttempt o.primaryCall with
    | ok img' =>
      have : img' = img := by simpa [refineImage, h1] using h
      exact runAttempt_ok_shape (this ▸ h1)
    | error err =>
      cases mode with
      | pro =>
        have hres : runAttempt o.fallbackCall = Except.ok img := by
          simpa [refineImage, h1, primaryGenModel] using h
        exact runAttempt_ok_shape hres
      | flash => simp [refineImage, h1, primaryGenModel] at h
  · intro p pm i im ty mode o img h
    cases h1 : runAttempt o.attempt1 with
    | ok img1 =>
      rw [generateTryOn_eq_ok1 h1] at h
      cases h
      exact runAttempt_ok_shape h1
    | error e1 =>
      cases h2 : runAttempt o.attempt2 with
      | ok img2 =>
        rw [generateTryOn_eq_ok2 h1 h2] at h
        cases h
        exact runAttempt_ok_shape h2
      | error e2 =>
        cases mode with
        | pro =>
          cases h3 : runAttempt o.attempt3 with
          | ok img3 =>
            rw [generateTryOn_eq_ok3 h1 h2 h3] at h
            cases h
            exact runAttempt_ok_shape h3
          | error e3 =>
            rw [generateTryOn_eq_fail_pro h1 h2 h3] at h
            cases h
        | flash =>
          rw [generateTryOn_eq_fail_flash h1 h2] at h
          cases h

/-- C10 (witness).  The success conjunct evaluated at a concrete response
whose first candidate stopped normally and carries one inline JPEG part. -/
theorem extractImageFromResponse_spec_witness :
    extractImageFromResponse (some sampleResponse) = Except.ok "data:image/jpeg;base64,QQ==" := by
  have h := extractImageFromResponse_spec.2.1 (some sampleResponse)
    sampleCandidate sampleInline rfl rfl rfl
  exact h

/-! ## Claim C1: the `generateTryOn` orchestration sequence -/

/-- C1 (counterexample).  The claim promises, for every run, the ladder
primary+strict → primary+relaxed → fallback+strict, stopping only at an
attempt that yields an image.  In `'flash'` mode with both prompt attempts
failing, the run makes exactly two generation calls and throws — the
promised third attempt (fallback model + strict prompt) never happens,
even though its response would have yielded an image. -/
theorem generateTryOn_no_third_attempt_counterexample :
    (generateTryOn "person" "image/png" "item" "image/png"
        ItemType.clothing ModelMode.flash c1Oracle).trace
      = [ServiceCall.describeItem,
         ServiceCall.generate "gemini-2.5-flash-image" (strictPrompt ItemType.clothing),
         ServiceCall.generate "gemini-2.5-flash-image"
           (relaxedPrompt ItemType.clothing "a denim jacket")] ∧
    (generateTryOn "person" "image/png" "item" "image/png"
        ItemType.clothing ModelMode.flash c1Oracle).result
      = Except.error "Generation failed: rate limited" ∧
    runAttempt c1Oracle.attempt3 = Except.ok "data:image/jpeg;base64,QQ==" := by
  refine ⟨rfl, rfl, rfl⟩

/-- C1 (amended, theorem).  `generateTryOn` first obtains an item
description, then attempts primary+strict, primary+relaxed, and — in
`'pro'` mode only — fallback+strict, stopping at the first attempt that
yields an image, and performs exactly one post-hoc validation call before
returning; when every attempt fails it throws without validating (in
`'flash'` mode the primary model already is `'gemini-2.5-flash-image'` and
no third attempt is made). -/
theorem generateTryOn_orchestration
    (p pm i im : String) (ty : ItemType) (mode : ModelMode) (o : TryOnOracle) :
    (∀ img, runAttempt o.attempt1 = Except.ok img →
      generateTryOn p pm i im ty mode o =
        { result := Except.ok img
          trace := [ServiceCall.describeItem,
                    ServiceCall.generate (primaryGenModel mode) (strictPrompt ty),
                    ServiceCall.validate]
          reviewWarning := !validateResult o.validateCall }) ∧
    (∀ e1 img, runAttempt o.attempt1 = Except.error e1 →
      runAttempt o.attempt2 = Except.ok img →
      generateTryOn p pm i im ty mode o =
        { result := Except.ok img
          trace := [ServiceCall.describeItem,
                    ServiceCall.generate (primaryGenModel mode) (strictPrompt ty),
                    ServiceCall.generate (primaryGenModel mode)
                      (relaxedPrompt ty (getItemDescription o.descCall)),
                    ServiceCall.validate]
          reviewWarning := !validateResult o.validateCall }) ∧
    (∀ e1 e2 img, mode = ModelMode.pro →
      runAttempt o.attempt1 = Except.error e1 →
      runAttempt o.attempt2 = Except.error e2 →
      runAttempt o.attempt3 = Except.ok img →
      generateTryOn p pm i im ty mode o =
        { result := Except.ok img
          trace := [ServiceCall.describeItem,
                    ServiceCall.generate (primaryGenModel mode) (strictPrompt ty),
                    ServiceCall.generate (primaryGenModel mode)
                      (relaxedPrompt ty (getItemDescription o.descCall)),
                    ServiceCall.generate "gemini-2.5-flash-image" (strictPrompt ty),
                    ServiceCall.validate]
          reviewWarning := !validateResult o.validateCall }) ∧
    (∀ e1 e2 e3, mode = ModelMode.pro →
      runAttempt o.attempt1 = Except.error e1 →
      runAttempt o.attempt2 = Except.error e2 →
      runAttempt o.attempt3 = Except.error e3 →
      generateTryOn p pm i im ty mode o =
        { result := Except.error ("Generation failed: " ++ jsErrorMessage e3)
          trace := [ServiceCall.describeItem,
                    ServiceCall.generate (primaryGenModel mode) (strictPrompt ty),
                    ServiceCall.generate (primaryGenModel mode)
                      (relaxedPrompt ty (getItemDescription o.descCall)),
                    ServiceCall.generate "gemini-2.5-flash-image" (strictPrompt ty)]
          reviewWarning := false }) ∧
    (∀ e1 e2, mode = ModelMode.flash →
      runAttempt o.attempt1 = Except.error e1 →
      runAttempt o.attempt2 = Except.error e2 →
      generateTryOn p pm i im ty mode o =
        { result := Except.error ("Generation failed: " ++ jsErrorMessage e2)
          trace := [ServiceCall.describeItem,
                    ServiceCall.generate (primaryGenModel mode) (strictPrompt ty),
                    ServiceCall.generate (primaryGenModel mode)
                      (relaxedPrompt ty (getItemDescription o.descCall))]
          reviewWarning := false }) := by
  refine ⟨?_, ?_, ?_, ?_, ?_⟩
  · intro img h1
    exact generateTryOn_eq_ok1 h1
  · intro e1 img h1 h2
    exact generateTryOn_eq_ok2 h1 h2
  · intro e1 e2 img hm h1 h2 h3
    subst hm
    exact generateTryOn_eq_ok3 h1 h2 h3
  · intro e1 e2 e3 hm h1 h2 h3
    subst hm
    exact generateTryOn_eq_fail_pro h1 h2 h3
  · intro e1 e2 hm h1 h2
    subst hm
    exact generateTryOn_eq_fail_flash h1 h2

/-- C1 (witness).  The first-attempt-succeeds conjunct at a concrete run:
one generation call, then one validation call, and the image is returned. -/
theorem generateTryOn_orchestration_witness :
    generateTryOn "p" "image/png" "i" "image/png"
        ItemType.clothing ModelMode.pro happyOracle =
      { result := Except.ok "data:image/jpeg;base64,QQ=="
        trace := [ServiceCall.describeItem,
                  ServiceCall.generate "gemini-3-pro-image-preview"
                    (strictPrompt ItemType.clothing),
                  ServiceCall.validate]
        reviewWarning := false } := by
  have h := (generateTryOn_orchestration "p" "image/png" "i" "image/png"
    ItemType.clothing ModelMode.pro happyOracle).1 "data:image/jpeg;base64,QQ==" rfl
  exact h

/-! ## Claim C2: giving up after the retry cascade -/

/-- C2 (counterexample).  The claim says that *in every mode*, once the
primary model has failed with both prompts, `generateTryOn` tries the
fallback model before giving up.  In `'flash'` mode it does not: after the
two failed prompt attempts the run throws immediately — the trace shows no
further generation call although the fallback-model response would have
yielded an image. -/
theorem generateTryOn_flash_no_fallback_counterexample :
    (generateTryOn "person" "image/png" "item" "image/png"
        ItemType.accessory ModelMode.flash c2Oracle).trace
      = [ServiceCall.describeItem,
         ServiceCall.generate "gemini-2.5-flash-image" (strictPrompt ItemType.accessory),
         ServiceCall.generate "gemini-2.5-flash-image"
           (relaxedPrompt ItemType.accessory "stylish clothing item")] ∧
    (generateTryOn "person" "image/png" "item" "image/png"
        ItemType.accessory ModelMode.flash c2Oracle).result
      = Except.error "Generation failed: model overloaded" ∧
    runAttempt c2Oracle.attempt3 = Except.ok "data:image/jpeg;base64,QQ==" := by
  refine ⟨rfl, rfl, rfl⟩

/-- C2 (amended, theorem).  When the primary model fails with both the
strict and the relaxed prompt: in `'pro'` mode `generateTryOn` tries the
fallback model `'gemini-2.5-flash-image'` with the strict prompt, returns
its image on success, and otherwise throws `'Generation failed: '` followed
by the last error's message (`'Unknown error'` when the last thrown value
is not an `Error`); in `'flash'` mode no third attempt is made and it
throws the same way using the second attempt's error. -/
theorem generateTryOn_give_up
    (p pm i im : String) (ty : ItemType) (o : TryOnOracle) (e1 e2 : ThrownVal)
    (h1 : runAttempt o.attempt1 = Except.error e1)
    (h2 : runAttempt o.attempt2 = Except.error e2) :
    (∀ e3, runAttempt o.attempt3 = Except.error e3 →
      (generateTryOn p pm i im ty ModelMode.pro o).result
        = Except.error ("Generation failed: " ++ jsErrorMessage e3) ∧
      (generateTryOn p pm i im ty ModelMode.pro o).trace
        = [ServiceCall.describeItem,
           ServiceCall.generate "gemini-3-pro-image-preview" (strictPrompt ty),
           ServiceCall.generate "gemini-3-pro-image-preview"
             (relaxedPrompt ty (getItemDescription o.descCall)),
           ServiceCall.generate "gemini-2.5-flash-image" (strictPrompt ty)]) ∧
    (∀ img, runAttempt o.attempt3 = Except.ok img →
      (generateTryOn p pm i im ty ModelMode.pro o).result = Except.ok img) ∧
    ((generateTryOn p pm i im ty ModelMode.flash o).result
        = Except.error ("Generation failed: " ++ jsErrorMessage e2) ∧
     (generateTryOn p pm i im ty ModelMode.flash o).trace
        = [ServiceCall.describeItem,
           ServiceCall.generate "gemini-2.5-flash-image" (strictPrompt ty),
           ServiceCall.generate "gemini-2.5-flash-image"
             (relaxedPrompt ty (getItemDescription o.descCall))]) := by
  refine ⟨?_, ?_, ?_⟩
  · intro e3 h3
    rw [generateTryOn_eq_fail_pro h1 h2 h3]
    exact ⟨rfl, by simp [primaryGenModel]⟩
  · intro img h3
    rw [generateTryOn_eq_ok3 h1 h2 h3]
  · rw [generateTryOn_eq_fail_flash h1 h2]
    exact ⟨rfl, by simp [primaryGenModel]⟩

/-- C2 (witness).  The amended theorem at a concrete all-fail run in
`'pro'` mode: the thrown message is built from the third attempt's error. -/
theorem generateTryOn_give_up_witness :
    (generateTryOn "p" "image/png" "i" "image/png"
        ItemType.nullType ModelMode.pro allFailOracle).result
      = Except.error "Generation failed: internal" := by
  have h := (generateTryOn_give_up "p" "image/png" "i" "image/png"
    ItemType.nullType allFailOracle (ThrownVal.errObj "bad request") ThrownVal.nonError
    rfl rfl).1 (ThrownVal.errObj "internal") rfl
  exact h.1

/-! ## Claim C3: the validation verdict never influences the result -/

/-- C3.  The `result` of `generateTryOn` is unchanged under any change of
the validation call's outcome (a YES, a NO, a missing text, or a throw),
and `validateResult` itself yields `true` whenever its call throws or the
response has no text — a failed review can only produce a warning. -/
theorem validateResult_no_influence :
    ∀ (p pm i im : String) (ty : ItemType) (mode : ModelMode) (o : TryOnOracle)
      (v1 v2 : Except ThrownVal (Option String)),
      (generateTryOn p pm i im ty mode { o with validateCall := v1 }).result
        = (generateTryOn p pm i im ty mode { o with validateCall := v2 }).result ∧
      (∀ e, validateResult (Except.error e) = true) ∧
      validateResult (Except.ok none) = true := by
  intro p pm i im ty mode o v1 v2
  refine ⟨?_, fun e => rfl, rfl⟩
  cases h1 : runAttempt o.attempt1 with
  | ok img =>
    rw [@generateTryOn_eq_ok1 p pm i im ty mode { o with validateCall := v1 } img h1,
        @generateTryOn_eq_ok1 p pm i im ty mode { o with validateCall := v2 } img h1]
  | error e1 =>
    cases h2 : runAttempt o.attempt2 with
    | ok img =>
      rw [@generateTryOn_eq_ok2 p pm i im ty mode { o with validateCall := v1 } e1 img h1 h2,
          @generateTryOn_eq_ok2 p pm i im ty mode { o with validateCall := v2 } e1 img h1 h2]
    | error e2 =>
      cases mode with
      | pro =>
        cases h3 : runAttempt o.attempt3 with
        | ok img =>
          rw [@generateTryOn_eq_ok3 p pm i im ty { o with validateCall := v1 } e1 e2 img h1 h2 h3,
              @generateTryOn_eq_ok3 p pm i im ty { o with validateCall := v2 } e1 e2 img h1 h2 h3]
        | error e3 =>
          rw [@generateTryOn_eq_fail_pro p pm i im ty { o with validateCall := v1 } e1 e2 e3 h1 h2 h3,
              @generateTryOn_eq_fail_pro p pm i im ty { o with validateCall := v2 } e1 e2 e3 h1 h2 h3]
      | flash =>
        rw [@generateTryOn_eq_fail_flash p pm i im ty { o with validateCall := v1 } e1 e2 h1 h2,
            @generateTryOn_eq_fail_flash p pm i im ty { o with validateCall := v2 } e1 e2 h1 h2]

/-! ## Claim C5: `refineImage` retry behaviour -/

/-- C5.  In `'pro'` mode a failed primary refinement call is retried
exactly once with `'gemini-2.5-flash-image'` and the retry's outcome —
including its error — is what the caller gets; in `'flash'` mode the
single call's error propagates unchanged with no retry; a successful
primary call is returned as is with a single model tried. -/
theorem refineImage_retry_spec :
    (∀ (ci ins : String) (o : RefineOracle) (e : ThrownVal),
      runAttempt o.primaryCall = Except.error e →
      refineImage ci ins ModelMode.pro o =
        { result := runAttempt o.fallbackCall
          modelsTried := ["gemini-3-pro-image-preview", "gemini-2.5-flash-image"] }) ∧
    (∀ (ci ins : String) (o : RefineOracle) (e : ThrownVal),
      runAttempt o.primaryCall = Except.error e →
      refineImage ci ins ModelMode.flash o =
        { result := Except.error e, modelsTried := ["gemini-2.5-flash-image"] }) ∧
    (∀ (ci ins : String) (mode : ModelMode) (o : RefineOracle) (img : String),
      runAttempt o.primaryCall = Except.ok img →
      refineImage ci ins mode o =
        { result := Except.ok img, modelsTried := [primaryGenModel mode] }) := by
  refine ⟨?_, ?_, ?_⟩
  · intro ci ins o e h
    simp [refineImage, h, primaryGenModel]
  · intro ci ins o e h
    simp [refineImage, h, primaryGenModel]
  · intro ci ins mode o img h
    simp [refineImage, h]

/-- C5 (witness).  The pro-mode conjunct at a concrete run: one retry with
the fallback model, whose image is returned. -/
theorem refineImage_retry_spec_witness :
    refineImage "data:image/png;base64,AA" "make it red" ModelMode.pro refineFailOracle =
      { result := Except.ok "data:image/jpeg;base64,QQ=="
        modelsTried := ["gemini-3-pro-image-preview", "gemini-2.5-flash-image"] } := by
  have h := refineImage_retry_spec.1 "data:image/png;base64,AA" "make it red"
    refineFailOracle (ThrownVal.errObj "primary down") rfl
  exact h

/-! ## Claim C6: statelessness of the service layer -/

/-- C6.  The service functions are pure: two calls with identical
arguments and identical API outcomes produce identical results; nothing is
carried over between calls.  (The module keeps no mutable state — its only
top-level bindings are constants — so each function is a function of its
arguments and the oracle alone.) -/
theorem service_stateless :
    ∀ (p pm i im ci ins ib mt : String) (ty : ItemType) (mode : ModelMode)
      (o o' : TryOnOracle) (a a' : AnalyzeOracle) (r r' : RefineOracle),
      o = o' → a = a' → r = r' →
      generateTryOn p pm i im ty mode o = generateTryOn p pm i im ty mode o' ∧
      analyzeItemImage ib mt mode a = analyzeItemImage ib mt mode a' ∧
      refineImage ci ins mode r = refineImage ci ins mode r' := by
  intro p pm i im ci ins ib mt ty mode o o' a a' r r' ho ha hr
  subst ho
  subst ha
  subst hr
  exact ⟨rfl, rfl, rfl⟩

/-- C6 (witness).  The statelessness theorem at concrete arguments and
oracles. -/
theorem service_stateless_witness :
    generateTryOn "p" "image/png" "i" "image/png" ItemType.clothing ModelMode.flash c2Oracle
      = generateTryOn "p" "image/png" "i" "image/png" ItemType.clothing ModelMode.flash c2Oracle ∧
    analyzeItemImage "i" "image/png" ModelMode.flash sampleAnalyzeOracle
      = analyzeItemImage "i" "image/png" ModelMode.flash sampleAnalyzeOracle ∧
    refineImage "img" "redder" ModelMode.flash refineFailOracle
      = refineImage "img" "redder" ModelMode.flash refineFailOracle := by
  exact service_stateless "p" "image/png" "i" "image/png" "img" "redder" "i" "image/png"
    ItemType.clothing ModelMode.flash c2Oracle c2Oracle
    sampleAnalyzeOracle sampleAnalyzeOracle refineFailOracle refineFailOracle rfl rfl rfl

/-! ## Claim C4: `analyzeItemImage` classification -/

/-- C4.  `analyzeItemImage` always classifies the item as `'clothing'` or
`'accessory'` and never throws (given a client): the parsed reply yields
`'accessory'` exactly when it contains `'accessory'` and not `'clothing'`
(case-insensitively, after trimming); any reply containing `'clothing'`,
containing neither word, empty, or a failed call yields `'clothing'`; and
in `'pro'` mode a failed call falls back to `'gemini-2.5-flash'` once
before defaulting. -/
theorem analyzeItemImage_spec :
    (∀ t : Option String,
      parseAnalysisResponse t = ItemType.accessory ↔
        ∃ s, t = some s ∧ strIncludes (toLowerStr (jsTrim s)) "accessory" = true ∧
          strIncludes (toLowerStr (jsTrim s)) "clothing" = false) ∧
    (∀ t : Option String, parseAnalysisResponse t = ItemType.clothing ∨
      parseAnalysisResponse t = ItemType.accessory) ∧
    (∀ (ib mt : String) (mode : ModelMode) (o : AnalyzeOracle),
      (analyzeItemImage ib mt mode o).1 = ItemType.clothing ∨
      (analyzeItemImage ib mt mode o).1 = ItemType.accessory) ∧
    (∀ (ib mt : String) (o : AnalyzeOracle) (t : Option String),
      o.primaryCall = Except.ok t →
      analyzeItemImage ib mt ModelMode.pro o
        = (parseAnalysisResponse t, ["gemini-3-pro-preview"])) ∧
    (∀ (ib mt : String) (o : AnalyzeOracle) (e : ThrownVal) (t : Option String),
      o.primaryCall = Except.error e → o.fallbackCall = Except.ok t →
      analyzeItemImage ib mt ModelMode.pro o
        = (parseAnalysisResponse t, ["gemini-3-pro-preview", "gemini-2.5-flash"])) ∧
    (∀ (ib mt : String) (o : AnalyzeOracle) (e e' : ThrownVal),
      o.primaryCall = Except.error e → o.fallbackCall = Except.error e' →
      analyzeItemImage ib mt ModelMode.pro o
        = (ItemType.clothing, ["gemini-3-pro-preview", "gemini-2.5-flash"])) ∧
    (∀ (ib mt : String) (o : AnalyzeOracle) (t : Option String),
      o.primaryCall = Except.ok t →
      analyzeItemImage ib mt ModelMode.flash o
        = (parseAnalysisResponse t, ["gemini-2.5-flash"])) ∧
    (∀ (ib mt : String) (o : AnalyzeOracle) (e : ThrownVal),
      o.primaryCall = Except.error e →
      analyzeItemImage ib mt ModelMode.flash o
        = (ItemType.clothing, ["gemini-2.5-flash"])) := by
  refine ⟨?_, ?_, ?_, ?_, ?_, ?_, ?_, ?_⟩
  · intro t
    constructor
    · intro h
      cases t with
      | none => simp [parseAnalysisResponse] at h
      | some s =>
        cases hcv : strIncludes (toLowerStr (jsTrim s)) "clothing" with
        | true => simp [parseAnalysisResponse, hcv] at h
        | false =>
          cases hav : strIncludes (toLowerStr (jsTrim s)) "accessory" with
          | false => simp [parseAnalysisResponse, hcv, hav] at h
          | true => exact ⟨s, rfl, hav, hcv⟩
    · rintro ⟨s, rfl, hav, hcv⟩
      simp [parseAnalysisResponse, hcv, hav]
  · intro t
    cases t with
    | none => exact Or.inl rfl
    | some s =>
      cases hcv : strIncludes (toLowerStr (jsTrim s)) "clothing" with
      | true => exact Or.inl (by simp [parseAnalysisResponse, hcv])
      | false =>
        cases hav : strIncludes (toLowerStr (jsTrim s)) "accessory" with
        | true => exact Or.inr (by simp [parseAnalysisResponse, hcv, hav])
        | false => exact Or.inl (by simp [parseAnalysisResponse, hcv, hav])
  · intro ib mt mode o
    have htotal : ∀ t : Option String, parseAnalysisResponse t = ItemType.clothing ∨
        parseAnalysisResponse t = ItemType.accessory := by
      intro t
      cases t with
      | none => exact Or.inl rfl
      | some s =>
        cases hcv : strIncludes (toLowerStr (jsTrim s)) "clothing" with
        | true => exact Or.inl (by simp [parseAnalysisResponse, hcv])
        | false =>
          cases hav : strIncludes (toLowerStr (jsTrim s)) "accessory" with
          | true => exact Or.inr (by simp [parseAnalysisResponse, hcv, hav])
          | false => exact Or.inl (by simp [parseAnalysisResponse, hcv, hav])
    cases hp : o.primaryCall with
    | ok t => simpa [analyzeItemImage, hp] using htotal t
    | error e =>
      cases mode with
      | pro =>
        cases hf : o.fallbackCall with
        | ok t => simpa [analyzeItemImage, hp, hf] using htotal t
        | error e' => simp [analyzeItemImage, hp, hf]
      | flash => simp [analyzeItemImage, hp]
  · intro ib mt o t hp
    simp [analyzeItemImage, hp]
  · intro ib mt o e t hp hf
    simp [analyzeItemImage, hp, hf]
  · intro ib mt o e e' hp hf
    simp [analyzeItemImage, hp, hf]
  · intro ib mt o t hp
    simp [analyzeItemImage, hp]
  · intro ib mt o e hp
    simp [analyzeItemImage, hp]

/-- C4 (witness).  The pro-fallback conjunct at a concrete run: the pro
call fails, the flash reply `" Accessory "` is parsed to `'accessory'`. -/
theorem analyzeItemImage_spec_witness :
    analyzeItemImage "item" "image/png" ModelMode.pro sampleAnalyzeOracle
      = (ItemType.accessory, ["gemini-3-pro-preview", "gemini-2.5-flash"]) := by
  have h := analyzeItemImage_spec.2.2.2.2.1 "item" "image/png" sampleAnalyzeOracle
    ThrownVal.nonError (some " Accessory ") rfl rfl
  exact h

/-! ## Claim C9: refinement is atomic for the undo history -/

/-- C9.  `handleRefine` pushes the current image before refining and, when
`refineImage` throws, pops it again and rethrows: the state (history and
displayed image) after a failed refinement is exactly the state before it;
on success the refined image is displayed and the pushed entry stays; and
`handleUndo` on an empty history changes nothing. -/
theorem handleRefine_atomic :
    (∀ (st : StudioState) (cur : String) (e : ThrownVal),
      st.generatedImage = some cur → cur ≠ "" →
      handleRefine st (Except.error e) = (st, some e)) ∧
    (∀ (st : StudioState) (cur refined : String),
      st.generatedImage = some cur → cur ≠ "" →
      handleRefine st (Except.ok refined)
        = ({ generatedImage := some refined, history := st.history ++ [cur] }, none)) ∧
    (∀ st : StudioState, st.history = [] → handleUndo st = st) := by
  refine ⟨?_, ?_, ?_⟩
  · intro st cur e hg hne
    obtain ⟨g, hist⟩ := st
    simp only [StudioState.generatedImage] at hg
    subst hg
    simp [handleRefine, hne]
  · intro st cur refined hg hne
    obtain ⟨g, hist⟩ := st
    simp only [StudioState.generatedImage] at hg
    subst hg
    simp [handleRefine, hne]
  · intro st h
    simp [handleUndo, h]

/-- C9 (witness).  The error and empty-undo conjuncts at concrete states. -/
theorem handleRefine_atomic_witness :
    handleRefine { generatedImage := some "data:image/png;base64,AA", history := ["old"] }
        (Except.error ThrownVal.nonError)
      = ({ generatedImage := some "data:image/png;base64,AA", history := ["old"] },
         some ThrownVal.nonError) ∧
    handleUndo { generatedImage := some "x", history := [] }
      = { generatedImage := some "x", history := [] } := by
  constructor
  · exact handleRefine_atomic.1 _ "data:image/png;base64,AA" ThrownVal.nonError rfl (by decide)
  · exact handleRefine_atomic.2.2 _ rfl

end NanoFit
